import Mathlib

/-!
Shallow embedding of the sentriex investment-fund controller
(`src/unnamed/part_000`, the `investment_fund` route handlers) and of the
model-layer operations it invokes, together with proofs of the lifecycle,
ledger and performance-report properties of that code.

Money and share quantities are embedded as exact rationals: the source routes
all such arithmetic through the arbitrary-precision decimal type
`bignumber.js`, whose decimal values are rationals and whose
addition/subtraction/multiplication are exact.  The relational store is a
record of lists; a controller returning `res.status(...)` or throwing is
embedded as a total function returning the (possibly unchanged) store paired
with an `Outcome`.  A knex `transaction` commits all of its writes exactly
when its callback does not throw; a thrown error rolls every write back, so a
transaction body is embedded as a function that either returns the fully
updated store or returns the untouched input store with the thrown error.
-/

/-- Request lifecycle states (`InvestmentFundRequest.statuses`). -/
inductive Status where
  | pendingEmailVerification
  | pending
  | approved
  | declined
  | canceled
  deriving DecidableEq

/-- Request kinds: the controller inserts `type: 'subscription'` or
`type: 'redemption'`. -/
inductive RequestType where
  | subscription
  | redemption
  deriving DecidableEq

/-- Errors thrown by the controller.  `cannotCancelRequest` and
`cannotPatchRequest` are the two domain error classes declared at the top of
the controller file, with their stable numeric codes.  `assertionFailed`
covers every Node `assert(...)` guard in the file — the missing
amount/percent assert as well as the `assert(balance, ...)` guards — which
all throw a generic `AssertionError`, not a taxonomy error.
`invalidArgument` is the spec taxonomy kind (from the `./errors` module,
which is not part of the excerpt); no handler in the excerpt throws it.
`typeError` is the JavaScript runtime error a broken access raises, and
`unknownOperation` the bare `new Error('Unknown investment fund request
operation')`. -/
inductive Err where
  | invalidArgument (msg : String)
  | assertionFailed (msg : String)
  | insufficientFunds
  | insufficientFundCapital
  | cannotCancelRequest
  | cannotPatchRequest
  | unknownOperation
  | typeError (msg : String)
  deriving DecidableEq

/-- Stable numeric codes of the domain errors (`get code()` in the source:
48 for `CannotCancelRequest`, 52 for `CannotPatchRequest`). -/
def Err.code : Err → Option Nat
  | .cannotCancelRequest => some 48
  | .cannotPatchRequest => some 52
  | _ => none

/-- Fixed messages of the domain errors (`get message()` in the source). -/
def Err.message : Err → Option String
  | .cannotCancelRequest => some "Investment fund request is not cancelable"
  | .cannotPatchRequest => some "Investment fund request status is locked"
  | _ => none

/-- Whether an error is the spec taxonomy kind `InvalidArgument`. -/
def Err.isInvalidArgument : Err → Bool
  | .invalidArgument _ => true
  | _ => false

/-- An investment fund row (`InvestmentFund` model): identity, currency,
authoritative share price and pooled capital. -/
structure InvestmentFund where
  id : Nat
  name : String
  currencyCode : String
  sharePrice : ℚ
  pooledCapital : ℚ
  deriving DecidableEq

/-- A fund share row (`InvestmentFundShares` model): `(fundId, userId)` with a
decimal share count. -/
structure Share where
  investmentFundId : Nat
  userId : Nat
  amount : ℚ
  deriving DecidableEq

/-- A balance row (`Balance` model): `(userId, currencyCode)` with a decimal
amount. -/
structure Balance where
  userId : Nat
  currencyCode : String
  amount : ℚ
  deriving DecidableEq

/-- An investment fund request row (`InvestmentFundRequest` model).  `amount`
is optional because a redemption may be created from a `percent` alone, in
which case the inserted row has no amount. -/
structure Request where
  id : Nat
  investmentFundId : Nat
  userId : Nat
  type : RequestType
  amount : Option ℚ
  requestPercent : Option ℚ
  status : Status
  refunded : Bool
  authenticationToken : String
  deriving DecidableEq

/-- The relational store the controller reads and writes, plus the
`investmentFundSettings` row (only its `userRedeemProfitPercent` column is
used here) and the id the next inserted request receives. -/
structure DB where
  funds : List InvestmentFund
  shares : List Share
  balances : List Balance
  requests : List Request
  userRedeemProfitPercent : ℚ
  nextRequestId : Nat
  deriving DecidableEq

/-- What a handler call produces besides the (possibly updated) store:
a success payload, an explicit non-200 response, or a thrown error. -/
inductive Outcome where
  | ok
  | okRequest (request : Request)
  | notFound (msg : String)
  | unauthorized
  | thrown (e : Err)
  deriving DecidableEq

/-- The `where({ userId, currencyCode })` predicate on balance rows. -/
def matchB (uid : Nat) (cc : String) (b : Balance) : Bool :=
  b.userId == uid && b.currencyCode == cc

/-- Modelled from the spec: the `Balance` model (`balance.remove`) is not part
of the excerpt.  Spec 4.2 debit: verifies `amount ≤ currentAmount` and writes
`currentAmount − amount`, failing with `InsufficientFunds` otherwise. -/
def Balance.remove (b : Balance) (amt : ℚ) : Option ℚ :=
  if amt ≤ b.amount then some (b.amount - amt) else none

/-- Write a new amount into the balance row(s) matching `(uid, cc)`. -/
def updateBalanceAmount (bs : List Balance) (uid : Nat) (cc : String) (v : ℚ) :
    List Balance :=
  bs.map (fun b => if matchB uid cc b then { b with amount := v } else b)

/-- Modelled from the spec: the `Balance` model (`balance.add`) is not part of
the excerpt.  Spec 4.2 credit: writes `currentAmount + amount`. -/
def creditBalance (bs : List Balance) (uid : Nat) (cc : String) (amt : ℚ) :
    List Balance :=
  bs.map (fun b => if matchB uid cc b then { b with amount := b.amount + amt } else b)

/-- `request.$query().update({...})` on the request row with the given id. -/
def updateRequestList (rs : List Request) (rid : Nat) (nr : Request) :
    List Request :=
  rs.map (fun r => if r.id == rid then nr else r)

/-- Set the status of the request row with the given id. -/
def setRequestStatus (rs : List Request) (rid : Nat) (st : Status) :
    List Request :=
  rs.map (fun r => if r.id == rid then { r with status := st } else r)

/-- Modelled from the spec: `InvestmentFundRequest.isCancelable` is a computed
model property, not part of the excerpt.  Spec 4.3: true while status is
`PENDING` and, for subscriptions, before fund approval has moved money into
the fund pool; approval is the only move of that money and it leaves
`PENDING`, so `PENDING` already implies the money has not moved. -/
def Request.isCancelable (r : Request) : Bool :=
  r.status == Status.pending

/-- Modelled from the spec: `InvestmentFundRequest.refundable` is a computed
model property, not part of the excerpt.  Spec 4.3: true for a subscription
whose debited amount was never converted to shares; the conversion happens
exactly at approval. -/
def Request.refundable (r : Request) : Bool :=
  r.type == RequestType.subscription && r.status != Status.approved

/-- Modelled from the spec: `InvestmentFundRequest.isLocked` is a computed
model property, not part of the excerpt.  Spec 4.3: locked once the request
is already terminal. -/
def Request.isLocked (r : Request) : Bool :=
  r.status == Status.approved || r.status == Status.declined ||
    r.status == Status.canceled

/-- JavaScript truthiness of an optional numeric field: `undefined` and `0`
are falsy, every other number is truthy. -/
def truthyOpt : Option ℚ → Bool
  | none => false
  | some q => q != 0

/-- JavaScript truthiness of an array: an Array object is truthy even when it
is empty, so `if (!request)` on the result of a multi-row query never takes
the branch. -/
def jsArrayTruthy (_rs : List Request) : Bool :=
  true

/-- The user's share row in a fund, as selected by `fetchPerformance`:
`where('shares.userId', userId).andWhere('shares.amount', '>', 0)`. -/
def userFundShare (db : DB) (uid fid : Nat) : Option Share :=
  db.shares.find? (fun s =>
    s.investmentFundId == fid && s.userId == uid && decide (0 < s.amount))

/-- `bignumber.js` rounding mode `ROUND_HALF_UP` (the `toFixed` default):
round to the nearest integer, ties away from zero. -/
def roundHalfUp (q : ℚ) : ℤ :=
  if 0 ≤ q then ⌊q + 1 / 2⌋ else -⌊-q + 1 / 2⌋

/-- Render a finite decimal to two decimal places, as `toFixed(2)` does. -/
def renderFixed2 (q : ℚ) : String :=
  let n : ℤ := roundHalfUp (q * 100)
  let a : Nat := n.natAbs
  (if n < 0 then "-" else "") ++ toString (a / 100) ++ "." ++
    (if a % 100 < 10 then "0" ++ toString (a % 100) else toString (a % 100))

/-- A `bignumber.js` value: a finite decimal, a signed infinity, or NaN. -/
inductive BigNum where
  | fin (val : ℚ)
  | posInf
  | negInf
  | nan
  deriving DecidableEq

/-- `bignumber.js` division: division by zero yields Infinity with the sign
of the dividend and NaN for 0/0; otherwise the exact quotient (the library's
default 20-decimal-place rounding of nonterminating quotients is below the
two decimal places kept by the callers modelled here). -/
def BigNum.dividedBy (x y : ℚ) : BigNum :=
  if y = 0 then (if x = 0 then .nan else if 0 < x then .posInf else .negInf)
  else .fin (x / y)

/-- `bignumber.js` multiplication of a value by a finite decimal. -/
def BigNum.timesQ : BigNum → ℚ → BigNum
  | .fin v, c => .fin (v * c)
  | .posInf, c => if 0 < c then .posInf else if c < 0 then .negInf else .nan
  | .negInf, c => if 0 < c then .negInf else if c < 0 then .posInf else .nan
  | .nan, _ => .nan

/-- `bignumber.js` `toFixed(2)`: non-finite values render as their names. -/
def BigNum.toFixed2 : BigNum → String
  | .fin v => renderFixed2 v
  | .posInf => "Infinity"
  | .negInf => "-Infinity"
  | .nan => "NaN"

/-- One entry of the performance report built by `fetchPerformance`. -/
structure PerfEntry where
  investmentFundId : Nat
  investmentFundName : String
  currencyCode : String
  shares : ℚ
  profitAmount : ℚ
  initialInvestment : ℚ
  investmentValue : ℚ
  profitPercent : String
  deriving DecidableEq

/-- The per-fund body of `fetchPerformance` (source lines 352-370), given the
user's share amount in the fund, the fund-level profit amount returned by
`calculateTotalProfitAmount`, and the platform setting
`userRedeemProfitPercent`. -/
def perfEntry (f : InvestmentFund) (shareAmount profitAmount r : ℚ) : PerfEntry :=
  let userProfitAmount := profitAmount * r
  let fees := profitAmount * (1 - r)
  let investmentValueMinusFees := shareAmount * f.sharePrice - fees
  let initialInvestment := investmentValueMinusFees - userProfitAmount
  let profitPercent :=
    ((BigNum.dividedBy userProfitAmount initialInvestment).timesQ 100).toFixed2
  { investmentFundId := f.id
    investmentFundName := f.name
    currencyCode := f.currencyCode
    shares := shareAmount
    profitAmount := userProfitAmount
    initialInvestment := initialInvestment
    investmentValue := investmentValueMinusFees
    profitPercent := profitPercent }

/-- Insert an entry into a list sorted by descending `profitAmount`, for the
final `performance.sort((a, b) => parseFloat(b.profitAmount) - parseFloat(a.profitAmount))`. -/
def insertDesc (e : PerfEntry) : List PerfEntry → List PerfEntry
  | [] => [e]
  | x :: xs =>
      if x.profitAmount ≤ e.profitAmount then e :: x :: xs
      else x :: insertDesc e xs

/-- Sort the performance report by descending `profitAmount`. -/
def sortDesc : List PerfEntry → List PerfEntry
  | [] => []
  | x :: xs => insertDesc x (sortDesc xs)

/-- `fetchPerformance`: select the funds in which the user holds a strictly
positive share amount, build one entry per such fund, and sort the report by
descending profit.  `profitOf` stands for the model method
`calculateTotalProfitAmount` (modelled from the spec: the weighted profit
accrual lives in the `InvestmentFund` model, not in the excerpt; it is taken
here as an arbitrary function of the fund).  The handler is read-only. -/
def fetchPerformance (db : DB) (uid : Nat) (profitOf : Nat → ℚ) :
    List PerfEntry :=
  let held := db.funds.filterMap (fun f =>
    (userFundShare db uid f.id).map (fun s => (f, s)))
  let performance := held.map (fun p =>
    perfEntry p.1 p.2.amount (profitOf p.1.id) db.userRedeemProfitPercent)
  sortDesc performance

/-- `subscribeToFund` (source lines 91-134): resolve fund (404 when absent),
resolve the user's balance in the fund currency (`assert(balance, ...)`),
check two-factor (401), then in one knex transaction insert the request in
status `PENDING` and debit the amount from the balance (`Promise.all` of the
insert and `balance.remove` inside the same `trx`); a failing leg rejects the
callback and rolls the whole transaction back. -/
def subscribeToFund (db : DB) (fid uid : Nat) (amt : ℚ) (twofa twofaVerified : Bool) :
    DB × Outcome :=
  match db.funds.find? (fun f => f.id == fid) with
  | none => (db, .notFound "Investment fund not found")
  | some fund =>
    match db.balances.find? (matchB uid fund.currencyCode) with
    | none => (db, .thrown (.assertionFailed "Balance not found"))
    | some bal =>
      if twofa && !twofaVerified then (db, .unauthorized)
      else
        let request : Request :=
          { id := db.nextRequestId
            investmentFundId := fund.id
            userId := uid
            type := .subscription
            amount := some amt
            requestPercent := none
            status := .pending
            refunded := false
            authenticationToken := "" }
        match bal.remove amt with
        | none => (db, .thrown .insufficientFunds)
        | some newAmt =>
            ({ db with
                requests := db.requests ++ [request]
                balances := updateBalanceAmount db.balances uid fund.currencyCode newAmt
                nextRequestId := db.nextRequestId + 1 },
              .okRequest request)

/-- The row `redeemFromFund` inserts: a redemption in status `PENDING`
carrying the given amount and percent. -/
def redemptionRow (db : DB) (fid uid : Nat) (amount percent : Option ℚ) :
    Request :=
  { id := db.nextRequestId
    investmentFundId := fid
    userId := uid
    type := .redemption
    amount := amount
    requestPercent := percent
    status := .pending
    refunded := false
    authenticationToken := "" }

/-- `redeemFromFund` (source lines 136-167): `assert(amount || percent, ...)`,
resolve fund (404 when absent), check two-factor (401), then insert the
redemption request directly in status `PENDING`.  No balance row is read or
written anywhere in the handler. -/
def redeemFromFund (db : DB) (fid uid : Nat) (amount percent : Option ℚ)
    (twofa twofaVerified : Bool) : DB × Outcome :=
  if !(truthyOpt amount || truthyOpt percent) then
    (db, .thrown (.assertionFailed "Need amount or percent for a redemption request"))
  else
    match db.funds.find? (fun f => f.id == fid) with
    | none => (db, .notFound "Investment fund not found")
    | some _fund =>
      if twofa && !twofaVerified then (db, .unauthorized)
      else
        ({ db with
            requests := db.requests ++ [redemptionRow db fid uid amount percent]
            nextRequestId := db.nextRequestId + 1 },
          .okRequest (redemptionRow db fid uid amount percent))

/-- `cancelRequest` (source lines 169-208), entirely inside one knex
transaction.  The source destructures `const { userId } = request;` on line
179 BEFORE the `if (!request)` null check on line 180, so when the row is
absent the handler throws a TypeError and the 404 branch is dead code.  When
the row is present: a non-cancelable request throws `CannotCancelRequest`;
otherwise the fund currency is read (`const { currencyCode } =
request.investmentFund`), the balance is resolved (`assert(balance, ...)`),
the row is updated to `CANCELED` with `refunded` recording `refundable`, and
when refundable the updated row's amount is credited back — all of it
committing together or rolling back together. -/
def cancelRequest (db : DB) (uid rid : Nat) : DB × Outcome :=
  match db.requests.find? (fun r => r.id == rid && r.userId == uid) with
  | none =>
      (db, .thrown (.typeError "Cannot destructure property userId of undefined"))
  | some request =>
      if !request.isCancelable then
        (db, .thrown .cannotCancelRequest)
      else
        match db.funds.find? (fun f => f.id == request.investmentFundId) with
        | none =>
            (db, .thrown (.typeError "Cannot destructure property currencyCode of undefined"))
        | some fund =>
            match db.balances.find? (matchB request.userId fund.currencyCode) with
            | none => (db, .thrown (.assertionFailed "Balance not found"))
            | some _bal =>
                let refundUser := request.refundable
                let updated : Request :=
                  { request with status := .canceled, refunded := refundUser }
                let credited :=
                  if refundUser then
                    -- `balance.add(result.amount, trx)`; a refundable request
                    -- is a subscription, which always carries an amount, so
                    -- the `none` branch is unreachable in the modelled flows
                    creditBalance db.balances request.userId fund.currencyCode
                      (match updated.amount with | some v => v | none => 0)
                  else db.balances
                ({ db with
                    requests := updateRequestList db.requests rid updated
                    balances := credited },
                  .ok)

/-- The user's current share count in a fund (0 when no row exists). -/
def heldShares (db : DB) (fid uid : Nat) : ℚ :=
  match db.shares.find? (fun s => s.investmentFundId == fid && s.userId == uid) with
  | some s => s.amount
  | none => 0

/-- Upsert: add share units to the user's share row in a fund. -/
def addShares (ss : List Share) (fid uid : Nat) (amt : ℚ) : List Share :=
  if ss.any (fun s => s.investmentFundId == fid && s.userId == uid) then
    ss.map (fun s =>
      if s.investmentFundId == fid && s.userId == uid then
        { s with amount := s.amount + amt }
      else s)
  else ss ++ [{ investmentFundId := fid, userId := uid, amount := amt }]

/-- Subtract share units from the user's share row in a fund. -/
def subShares (ss : List Share) (fid uid : Nat) (amt : ℚ) : List Share :=
  ss.map (fun s =>
    if s.investmentFundId == fid && s.userId == uid then
      { s with amount := s.amount - amt }
    else s)

/-- Add to a fund's pooled capital. -/
def addPooledCapital (fs : List InvestmentFund) (fid : Nat) (amt : ℚ) :
    List InvestmentFund :=
  fs.map (fun f =>
    if f.id == fid then { f with pooledCapital := f.pooledCapital + amt } else f)

/-- Modelled from the spec: `InvestmentFund.approveSubscription` lives in the
fund model, not in the excerpt.  Spec 4.3: convert the previously debited
amount into `amount / sharePrice` shares, credit the fund's pooled capital,
set status `APPROVED`, in one transaction. -/
def approveSubscription (db : DB) (fund : InvestmentFund) (r : Request) :
    DB × Outcome :=
  let amt := match r.amount with | some v => v | none => 0
  ({ db with
      requests := setRequestStatus db.requests r.id .approved
      shares := addShares db.shares fund.id r.userId (amt / fund.sharePrice)
      funds := addPooledCapital db.funds fund.id amt },
    .ok)

/-- Modelled from the spec: `InvestmentFund.declineSubscription` lives in the
fund model, not in the excerpt.  Spec 4.3: refund the previously debited
amount to the user's balance and set status `DECLINED`, in one transaction. -/
def declineSubscription (db : DB) (fund : InvestmentFund) (r : Request) :
    DB × Outcome :=
  let amt := match r.amount with | some v => v | none => 0
  ({ db with
      requests := setRequestStatus db.requests r.id .declined
      balances := creditBalance db.balances r.userId fund.currencyCode amt },
    .ok)

/-- Modelled from the spec: `InvestmentFund.approveRedemption` lives in the
fund model, not in the excerpt.  Spec 4.3: liquidate `requestPercent *
heldShares` shares when a percent is given, else the requested amount taken
as a share quantity; convert to fiat at the current share price; decrement
the share row, credit the user's balance, debit the pooled capital (failing
with `InsufficientFundCapital` rather than overdrawing it), set status
`APPROVED`, in one transaction. -/
def approveRedemption (db : DB) (fund : InvestmentFund) (r : Request) :
    DB × Outcome :=
  let sharesToSell :=
    match r.requestPercent with
    | some p => p * heldShares db fund.id r.userId
    | none => match r.amount with | some v => v | none => 0
  let fiat := sharesToSell * fund.sharePrice
  if fund.pooledCapital < fiat then (db, .thrown .insufficientFundCapital)
  else
    ({ db with
        requests := setRequestStatus db.requests r.id .approved
        shares := subShares db.shares fund.id r.userId sharesToSell
        balances := creditBalance db.balances r.userId fund.currencyCode fiat
        funds := addPooledCapital db.funds fund.id (-fiat) },
      .ok)

/-- Modelled from the spec: `InvestmentFund.declineRedemption` lives in the
fund model, not in the excerpt.  Spec 4.3: no balance movement (none was
reserved at creation); set status `DECLINED`. -/
def declineRedemption (db : DB) (_fund : InvestmentFund) (r : Request) :
    DB × Outcome :=
  ({ db with requests := setRequestStatus db.requests r.id .declined }, .ok)

/-- `patchInvestmentFundRequest` (source lines 210-245): resolve the fund
joined with the request (404 when absent), reject a locked request with
`CannotPatchRequest`, then dispatch on the `(request type, target status)`
pair over the four approve/decline operations; any other pair falls into the
final `else` and throws the bare `new Error('Unknown investment fund request
operation')`. -/
def patchInvestmentFundRequest (db : DB) (rid : Nat) (status : Status) :
    DB × Outcome :=
  match db.requests.find? (fun r => r.id == rid) with
  | none => (db, .notFound "Not found")
  | some fundRequest =>
    match db.funds.find? (fun f => f.id == fundRequest.investmentFundId) with
    | none => (db, .notFound "Not found")
    | some fund =>
      if fundRequest.isLocked then (db, .thrown .cannotPatchRequest)
      else
        match fundRequest.type, status with
        | .subscription, .approved => approveSubscription db fund fundRequest
        | .subscription, .declined => declineSubscription db fund fundRequest
        | .redemption, .approved => approveRedemption db fund fundRequest
        | .redemption, .declined => declineRedemption db fund fundRequest
        | _, _ => (db, .thrown .unknownOperation)

/-- `activateRequest` (source lines 247-263).  The query carries no
`.first()`, so `request` is an Array of rows.  `if (!request)` never fires
because an Array — empty or not — is truthy, so the 404 branch is dead code;
and `request.$query()` is not a function on an Array, so every call throws a
TypeError before any row is updated. -/
def activateRequest (db : DB) (uid : Nat) (token : String) : DB × Outcome :=
  let request := db.requests.filter (fun r =>
    r.userId == uid && r.authenticationToken == token &&
      r.status == Status.pendingEmailVerification)
  if jsArrayTruthy request = false then (db, .notFound "Request not found")
  else (db, .thrown (.typeError "request.$query is not a function"))

section Lemmas

lemma find?_updateBalanceAmount (bs : List Balance) (uid : Nat) (cc : String) (v : ℚ) :
    (updateBalanceAmount bs uid cc v).find? (matchB uid cc) =
      (bs.find? (matchB uid cc)).map (fun b => { b with amount := v }) := by
  induction bs with
  | nil => rfl
  | cons b t ih =>
      by_cases h : matchB uid cc b
      · have h2 : matchB uid cc { b with amount := v } := by
          simpa [matchB] using h
        simp [updateBalanceAmount, List.find?, h, h2]
      · have h2 : matchB uid cc b = false := by simpa using h
        simp only [updateBalanceAmount, List.map, h2, if_neg, List.find?,
          Bool.false_eq_true, ite_false]
        simpa [updateBalanceAmount, List.find?, h2] using ih

lemma find?_creditBalance (bs : List Balance) (uid : Nat) (cc : String) (amt : ℚ) :
    (creditBalance bs uid cc amt).find? (matchB uid cc) =
      (bs.find? (matchB uid cc)).map (fun b => { b with amount := b.amount + amt }) := by
  induction bs with
  | nil => rfl
  | cons b t ih =>
      by_cases h : matchB uid cc b
      · have h2 : matchB uid cc { b with amount := b.amount + amt } := by
          simpa [matchB] using h
        simp [creditBalance, List.find?, h, h2]
      · have h2 : matchB uid cc b = false := by simpa using h
        simpa [creditBalance, List.find?, h2] using ih

lemma find?_updateRequestList (rs : List Request) (rid uid : Nat)
    (req nr : Request)
    (hfind : rs.find? (fun r => r.id == rid && r.userId == uid) = some req)
    (hid : nr.id = rid) (huid : nr.userId = uid) :
    (updateRequestList rs rid nr).find? (fun r => r.id == rid && r.userId == uid) =
      some nr := by
  induction rs with
  | nil => simp [List.find?] at hfind
  | cons r t ih =>
      by_cases hm : (r.id == rid && r.userId == uid) = true
      · have hrid : r.id == rid := (Bool.and_eq_true _ _ ▸ hm).1
        simp [updateRequestList, List.find?, hrid, hid, huid]
      · have hm2 : (r.id == rid && r.userId == uid) = false := by simpa using hm
        have hfind2 : t.find? (fun r => r.id == rid && r.userId == uid) = some req := by
          simpa [List.find?, hm2] using hfind
        by_cases hr : r.id == rid
        · simp [updateRequestList, List.find?, hr, hid, huid]
        · have hres := ih hfind2
          simpa [updateRequestList, List.find?, hr, hm2] using hres

lemma mem_insertDesc (e x : PerfEntry) (l : List PerfEntry) :
    x ∈ insertDesc e l ↔ x = e ∨ x ∈ l := by
  induction l with
  | nil => simp [insertDesc]
  | cons y ys ih =>
      by_cases h : y.profitAmount ≤ e.profitAmount
      · simp [insertDesc, h]
      · simp [insertDesc, h, ih]
        tauto

lemma mem_sortDesc (x : PerfEntry) (l : List PerfEntry) :
    x ∈ sortDesc l ↔ x ∈ l := by
  induction l with
  | nil => simp [sortDesc]
  | cons y ys ih => simp [sortDesc, mem_insertDesc, ih]

end Lemmas

/-- C1: For every subscription creation (`subscribeToFund`) on an existing
fund with an existing balance and verified two-factor, the debit of the
subscription amount and the insertion of the `PENDING` request form one
atomic transaction: when the debit fails nothing persists (the store is
returned untouched together with the thrown error), and on success exactly
the two writes persist — the request row appended in status `PENDING` and
the balance row debited by the amount. -/
theorem subscribeToFund_atomic (db : DB) (fid uid : Nat) (amt : ℚ)
    (twofa twofaVerified : Bool) (fund : InvestmentFund) (bal : Balance)
    (hf : db.funds.find? (fun f => f.id == fid) = some fund)
    (hb : db.balances.find? (matchB uid fund.currencyCode) = some bal)
    (h2 : twofa = false ∨ twofaVerified = true) :
    (bal.amount < amt →
      subscribeToFund db fid uid amt twofa twofaVerified =
        (db, .thrown .insufficientFunds)) ∧
    (amt ≤ bal.amount →
      ∃ req : Request,
        subscribeToFund db fid uid amt twofa twofaVerified =
          ({ db with
              requests := db.requests ++ [req]
              balances := updateBalanceAmount db.balances uid fund.currencyCode
                (bal.amount - amt)
              nextRequestId := db.nextRequestId + 1 },
            .okRequest req) ∧
        req.status = .pending ∧ req.type = .subscription ∧
        req.amount = some amt ∧ req.userId = uid ∧
        ∃ b : Balance,
          (subscribeToFund db fid uid amt twofa twofaVerified).1.balances.find?
              (matchB uid fund.currencyCode) = some b ∧
          b.amount = bal.amount - amt) := by
  have h2fa : (twofa && !twofaVerified) = false := by
    rcases h2 with h | h <;> simp [h]
  constructor
  · intro hlt
    have hrem : bal.remove amt = none := by
      simp [Balance.remove, not_le.mpr hlt]
    simp [subscribeToFund, hf, hb, h2fa, hrem]
  · intro hle
    have hrem : bal.remove amt = some (bal.amount - amt) := by
      simp [Balance.remove, hle]
    refine ⟨{ id := db.nextRequestId
              investmentFundId := fund.id
              userId := uid
              type := .subscription
              amount := some amt
              requestPercent := none
              status := .pending
              refunded := false
              authenticationToken := "" },
      ?_, rfl, rfl, rfl, rfl, ?_⟩
    · simp [subscribeToFund, hf, hb, h2fa, hrem]
    · refine ⟨{ bal with amount := bal.amount - amt }, ?_, rfl⟩
      simp [subscribeToFund, hf, hb, h2fa, hrem, find?_updateBalanceAmount, hb]

/-- A concrete fund used to instantiate the theorems. -/
def wFund : InvestmentFund :=
  { id := 1
    name := "Alpha"
    currencyCode := "USD"
    sharePrice := 2
    pooledCapital := 0 }

/-- A concrete balance row used to instantiate the theorems. -/
def wBal : Balance :=
  { userId := 1
    currencyCode := "USD"
    amount := 1000 }

/-- A concrete store used to instantiate the theorems. -/
def wDb : DB :=
  { funds := [wFund]
    shares := []
    balances := [wBal]
    requests := []
    userRedeemProfitPercent := 3 / 10
    nextRequestId := 7 }

/-- Witness for C1 at a concrete store: user 1 holds 1000 USD, subscribes 400
to fund 1; the call commits the appended `PENDING` request together with the
debited balance. -/
theorem subscribeToFund_atomic_witness :
    wDb.funds.find? (fun f => f.id == 1) = some wFund ∧
    wDb.balances.find? (matchB 1 wFund.currencyCode) = some wBal ∧
    (400 : ℚ) ≤ wBal.amount ∧
    (∃ req : Request,
      subscribeToFund wDb 1 1 400 false false =
        ({ wDb with
            requests := wDb.requests ++ [req]
            balances := updateBalanceAmount wDb.balances 1 wFund.currencyCode
              (wBal.amount - 400)
            nextRequestId := wDb.nextRequestId + 1 },
          .okRequest req) ∧
      req.status = .pending ∧ req.type = .subscription ∧
      req.amount = some 400 ∧ req.userId = 1 ∧
      ∃ b : Balance,
        (subscribeToFund wDb 1 1 400 false false).1.balances.find?
            (matchB 1 wFund.currencyCode) = some b ∧
        b.amount = wBal.amount - 400) :=
  ⟨rfl, rfl, by norm_num [wBal],
    (subscribeToFund_atomic wDb 1 1 400 false false wFund wBal rfl rfl
      (Or.inl rfl)).2 (by norm_num [wBal])⟩

/-- C10: every entry of the performance report corresponds to a share record
of the requesting user with a strictly positive amount; funds where the user
holds zero shares or no share record never appear. -/
theorem fetchPerformance_positive_shares (db : DB) (uid : Nat)
    (profitOf : Nat → ℚ) (e : PerfEntry)
    (he : e ∈ fetchPerformance db uid profitOf) :
    ∃ s ∈ db.shares, s.userId = uid ∧ s.investmentFundId = e.investmentFundId ∧
      0 < s.amount ∧ e.shares = s.amount := by
  unfold fetchPerformance at he
  rw [mem_sortDesc, List.mem_map] at he
  obtain ⟨⟨f, s⟩, hmem, he⟩ := he
  rw [List.mem_filterMap] at hmem
  obtain ⟨f0, _hf0, hmap⟩ := hmem
  rw [Option.map_eq_some'] at hmap
  obtain ⟨s0, hopt, hpair⟩ := hmap
  obtain ⟨hff, hss⟩ := Prod.mk.injEq .. ▸ hpair
  subst hff
  subst hss
  have hpred := List.find?_some hopt
  have hmem2 := List.mem_of_find?_eq_some hopt
  simp only [Bool.and_eq_true, beq_iff_eq, decide_eq_true_eq] at hpred
  obtain ⟨⟨hfid, huid⟩, hpos⟩ := hpred
  refine ⟨s0, hmem2, huid, ?_, hpos, ?_⟩
  · rw [hfid, ← he]
    simp [perfEntry]
  · rw [← he]
    simp [perfEntry]

/-- Witness for C10 at a concrete store: user 1 holds 100 shares of fund 1,
and the single report entry points back at that share record. -/
theorem fetchPerformance_positive_shares_witness :
    perfEntry wFund 100 50 (3 / 10) ∈
      fetchPerformance { wDb with shares := [{ investmentFundId := 1
                                               userId := 1
                                               amount := 100 }] } 1 (fun _ => 50) ∧
    ∃ s ∈ ({ wDb with shares := [{ investmentFundId := 1
                                   userId := 1
                                   amount := 100 }] } : DB).shares,
      s.userId = 1 ∧
      s.investmentFundId = (perfEntry wFund 100 50 (3 / 10)).investmentFundId ∧
      0 < s.amount ∧ (perfEntry wFund 100 50 (3 / 10)).shares = s.amount :=
  ⟨List.mem_singleton.mpr rfl,
    fetchPerformance_positive_shares _ 1 (fun _ => 50) _ (List.mem_singleton.mpr rfl)⟩

/-- C2: the per-fund performance computation of `fetchPerformance` satisfies
`userProfit = q * r`, `platformFee = q * (1 - r)` (so the reported value is
`h * p` minus that fee), `currentValue = h * p - platformFee`,
`initialBasis = currentValue - userProfit`, and `profitPercent =
(userProfit / initialBasis) * 100` rendered to two decimal places; in
particular for `r = 0.3`, `q = 100`, `h * p = 500` it yields `userProfit =
30`, `platformFee = 70`, `currentValue = 430`, `initialBasis = 400`,
`profitPercent = "7.50"`.  (The source computes `1 - r` in JavaScript number
arithmetic before handing it to the decimal library; it is embedded as the
exact subtraction, which is what the double yields at the scenario value
`r = 0.3`.) -/
theorem fetchPerformance_profit_formulas (f : InvestmentFund) (h q r : ℚ) :
    (perfEntry f h q r).profitAmount = q * r ∧
    h * f.sharePrice - (perfEntry f h q r).investmentValue = q * (1 - r) ∧
    (perfEntry f h q r).investmentValue = h * f.sharePrice - q * (1 - r) ∧
    (perfEntry f h q r).initialInvestment =
      (perfEntry f h q r).investmentValue - (perfEntry f h q r).profitAmount ∧
    (h * f.sharePrice - q * (1 - r) - q * r ≠ 0 →
      (perfEntry f h q r).profitPercent =
        renderFixed2 (q * r / (h * f.sharePrice - q * (1 - r) - q * r) * 100)) ∧
    ((perfEntry wFund 250 100 (3 / 10)).profitAmount = 30 ∧
      (100 : ℚ) * (1 - 3 / 10) = 70 ∧
      (perfEntry wFund 250 100 (3 / 10)).investmentValue = 430 ∧
      (perfEntry wFund 250 100 (3 / 10)).initialInvestment = 400 ∧
      (perfEntry wFund 250 100 (3 / 10)).profitPercent = "7.50") := by
  have hfin : ∀ (g : InvestmentFund) (a b c : ℚ),
      a * g.sharePrice - b * (1 - c) - b * c ≠ 0 →
      (perfEntry g a b c).profitPercent =
        renderFixed2 (b * c / (a * g.sharePrice - b * (1 - c) - b * c) * 100) := by
    intro g a b c hb
    simp only [perfEntry]
    rw [BigNum.dividedBy, if_neg hb]
    rfl
  refine ⟨rfl, by simp [perfEntry], by simp [perfEntry], by simp [perfEntry],
    hfin f h q r, ?_, by norm_num, ?_, ?_, ?_⟩
  · norm_num [perfEntry]
  · norm_num [perfEntry, wFund]
  · norm_num [perfEntry, wFund]
  · rw [hfin wFund 250 100 (3 / 10) (by norm_num [wFund])]
    have hval : (100 : ℚ) * (3 / 10) /
        (250 * wFund.sharePrice - 100 * (1 - 3 / 10) - 100 * (3 / 10)) * 100 =
        15 / 2 := by
      norm_num [wFund]
    rw [hval]
    have h750 : roundHalfUp ((15 / 2 : ℚ) * 100) = 750 := by
      norm_num [roundHalfUp]
    simp only [renderFixed2, h750]
    rfl

/-- Witness for C2: the scenario instance, with the nonzero-basis hypothesis
of the `profitPercent` clause discharged at `r = 0.3`, `q = 100`,
`h * p = 500`. -/
theorem fetchPerformance_profit_formulas_witness :
    ((250 : ℚ) * wFund.sharePrice - 100 * (1 - 3 / 10) - 100 * (3 / 10) ≠ 0) ∧
    (perfEntry wFund 250 100 (3 / 10)).profitPercent =
      renderFixed2 (100 * (3 / 10) /
        (250 * wFund.sharePrice - 100 * (1 - 3 / 10) - 100 * (3 / 10)) * 100) :=
  ⟨by norm_num [wFund],
    (fetchPerformance_profit_formulas wFund 250 100 (3 / 10)).2.2.2.2.1
      (by norm_num [wFund])⟩

/-- A concrete fund whose numbers drive the performance basis to zero. -/
def cexFund : InvestmentFund :=
  { id := 2
    name := "Beta"
    currencyCode := "USD"
    sharePrice := 100
    pooledCapital := 0 }

/-- A concrete store for the zero-basis performance report. -/
def cexDb7 : DB :=
  { funds := [cexFund]
    shares := [{ investmentFundId := 2
                 userId := 1
                 amount := 1 }]
    balances := []
    requests := []
    userRedeemProfitPercent := 3 / 10
    nextRequestId := 1 }

/-- C7 as amended: when `initialBasis = 0` the computation does not fail with
a `DivisionByZero` error; it returns a value whose `profitPercent` renders as
`"Infinity"` when `userProfit > 0`, `"NaN"` when `userProfit = 0`, and
`"-Infinity"` when `userProfit < 0`, matching `bignumber.js` division by
zero. -/
theorem fetchPerformance_profitPercent_div_by_zero (f : InvestmentFund)
    (h q r : ℚ)
    (hbasis : h * f.sharePrice - q * (1 - r) - q * r = 0) :
    (0 < q * r → (perfEntry f h q r).profitPercent = "Infinity") ∧
    (q * r = 0 → (perfEntry f h q r).profitPercent = "NaN") ∧
    (q * r < 0 → (perfEntry f h q r).profitPercent = "-Infinity") := by
  refine ⟨?_, ?_, ?_⟩ <;> intro h1
  · have hne : q * r ≠ 0 := ne_of_gt h1
    simp only [perfEntry]
    rw [hbasis, BigNum.dividedBy]
    simp [hne, h1, BigNum.timesQ, BigNum.toFixed2]
  · simp only [perfEntry]
    rw [hbasis, BigNum.dividedBy]
    simp [h1, BigNum.timesQ, BigNum.toFixed2]
  · have hne : q * r ≠ 0 := ne_of_lt h1
    simp only [perfEntry]
    rw [hbasis, BigNum.dividedBy]
    simp [hne, h1, not_lt.mpr (le_of_lt h1), BigNum.timesQ, BigNum.toFixed2]

/-- Counterexample to C7: with held value `1 * 100`, fund profit `100` and
`r = 0.3` the basis `initialInvestment` is `0`, yet the computation does not
fail — `bignumber.js` division by zero yields Infinity, `fetchPerformance`
returns normally, and the entry renders `profitPercent` as `"Infinity"`. -/
theorem fetchPerformance_div_by_zero_cex :
    (perfEntry cexFund 1 100 (3 / 10)).initialInvestment = 0 ∧
    (perfEntry cexFund 1 100 (3 / 10)).profitPercent = "Infinity" ∧
    fetchPerformance cexDb7 1 (fun _ => 100) = [perfEntry cexFund 1 100 (3 / 10)] := by
  have hb : (1 : ℚ) * cexFund.sharePrice - 100 * (1 - 3 / 10) - 100 * (3 / 10) = 0 := by
    norm_num [cexFund]
  refine ⟨by norm_num [perfEntry, cexFund], ?_, rfl⟩
  simp only [perfEntry]
  rw [hb, BigNum.dividedBy]
  norm_num [BigNum.timesQ, BigNum.toFixed2]

/-- Witness for the amended C7 at the concrete zero-basis instance. -/
theorem fetchPerformance_profitPercent_div_by_zero_witness :
    ((1 : ℚ) * cexFund.sharePrice - 100 * (1 - 3 / 10) - 100 * (3 / 10) = 0) ∧
    (0 < (100 : ℚ) * (3 / 10)) ∧
    (perfEntry cexFund 1 100 (3 / 10)).profitPercent = "Infinity" :=
  ⟨by norm_num [cexFund], by norm_num,
    (fetchPerformance_profitPercent_div_by_zero cexFund 1 100 (3 / 10)
      (by norm_num [cexFund])).1 (by norm_num)⟩

/-- C3: a successful cancellation of a cancelable request commits, in one
transaction, the status write to `CANCELED` with `refunded` recording the
request's computed `refundable` value, together with — exactly when
`refundable` is true — the credit of the request's original amount back to
the user's balance. -/
theorem cancelRequest_success (db : DB) (uid rid : Nat) (request : Request)
    (fund : InvestmentFund) (bal : Balance) (a : ℚ)
    (hreq : db.requests.find? (fun r => r.id == rid && r.userId == uid) = some request)
    (hc : request.isCancelable = true)
    (hf : db.funds.find? (fun f => f.id == request.investmentFundId) = some fund)
    (hb : db.balances.find? (matchB request.userId fund.currencyCode) = some bal)
    (ha : request.amount = some a) :
    (cancelRequest db uid rid).2 = .ok ∧
    (cancelRequest db uid rid).1.requests.find?
        (fun r => r.id == rid && r.userId == uid) =
      some { request with status := .canceled, refunded := request.refundable } ∧
    ∃ b : Balance,
      (cancelRequest db uid rid).1.balances.find?
          (matchB request.userId fund.currencyCode) = some b ∧
      b.amount = bal.amount + (if request.refundable then a else 0) := by
  have hp := List.find?_some hreq
  simp only [Bool.and_eq_true, beq_iff_eq] at hp
  obtain ⟨hid, huid⟩ := hp
  have hmain : cancelRequest db uid rid =
      ({ db with
          requests := updateRequestList db.requests rid
            { request with status := .canceled, refunded := request.refundable }
          balances :=
            if request.refundable then
              creditBalance db.balances request.userId fund.currencyCode a
            else db.balances },
        .ok) := by
    simp [cancelRequest, hreq, hc, hf, hb, ha]
  rw [hmain]
  refine ⟨rfl, ?_, ?_⟩
  · exact find?_updateRequestList db.requests rid uid request _ hreq hid huid
  · by_cases hr : request.refundable
    · refine ⟨{ bal with amount := bal.amount + a }, ?_, by simp [hr]⟩
      simp only [hr, if_pos]
      simp [find?_creditBalance, hb]
    · refine ⟨bal, ?_, by simp [hr]⟩
      simp [hr]
      exact hb

/-- A pending subscription request used to instantiate the theorems. -/
def wReq : Request :=
  { id := 5
    investmentFundId := 1
    userId := 1
    type := .subscription
    amount := some 400
    requestPercent := none
    status := .pending
    refunded := false
    authenticationToken := "" }

/-- The concrete store with the pending subscription request. -/
def wDb3 : DB := { wDb with requests := [wReq] }

/-- Witness for C3: cancelling the pending subscription cancels the row,
records `refunded = true` and credits the 400 back. -/
theorem cancelRequest_success_witness :
    wDb3.requests.find? (fun r => r.id == 5 && r.userId == 1) = some wReq ∧
    wReq.isCancelable = true ∧
    ((cancelRequest wDb3 1 5).2 = .ok ∧
      (cancelRequest wDb3 1 5).1.requests.find?
          (fun r => r.id == 5 && r.userId == 1) =
        some { wReq with status := .canceled, refunded := wReq.refundable } ∧
      ∃ b : Balance,
        (cancelRequest wDb3 1 5).1.balances.find?
            (matchB wReq.userId wFund.currencyCode) = some b ∧
        b.amount = wBal.amount + (if wReq.refundable then 400 else 0)) :=
  ⟨rfl, rfl, cancelRequest_success wDb3 1 5 wReq wFund wBal 400 rfl rfl rfl rfl rfl⟩

/-- C4: a cancellation attempt on a request that is not cancelable throws the
domain error `CannotCancelRequest` — which carries the stable code 48 and its
fixed message rather than being a bare 400 — and the transaction rolls back,
leaving the store (request and balances included) unchanged. -/
theorem cancelRequest_not_cancelable (db : DB) (uid rid : Nat)
    (request : Request)
    (hreq : db.requests.find? (fun r => r.id == rid && r.userId == uid) = some request)
    (hc : request.isCancelable = false) :
    cancelRequest db uid rid = (db, .thrown .cannotCancelRequest) ∧
    Err.code .cannotCancelRequest = some 48 ∧
    Err.message .cannotCancelRequest =
      some "Investment fund request is not cancelable" := by
  refine ⟨?_, rfl, rfl⟩
  simp [cancelRequest, hreq, hc]

/-- An already-canceled request, for the second-cancellation witness. -/
def wReqCanceled : Request := { wReq with id := 6, status := .canceled }

/-- The concrete store holding the already-canceled request. -/
def wDb4 : DB := { wDb with requests := [wReqCanceled] }

/-- Witness for C4: re-cancelling an already-`CANCELED` request fails with
`CannotCancelRequest` and changes nothing. -/
theorem cancelRequest_not_cancelable_witness :
    wDb4.requests.find? (fun r => r.id == 6 && r.userId == 1) = some wReqCanceled ∧
    wReqCanceled.isCancelable = false ∧
    wReqCanceled.status = .canceled ∧
    cancelRequest wDb4 1 6 = (wDb4, .thrown .cannotCancelRequest) :=
  ⟨rfl, rfl, rfl, (cancelRequest_not_cancelable wDb4 1 6 wReqCanceled rfl rfl).1⟩

/-- C8 (the code as it is): when no request with the given id belongs to the
requesting user, `cancelRequest` does NOT produce the 404 — the
`const { userId } = request;` destructuring on line 179 runs before the null
check on line 180, so the handler throws a TypeError; the transaction rolls
back and no state is modified.  The `NotFound` branch of the source is dead
code. -/
theorem cancelRequest_missing_request (db : DB) (uid rid : Nat)
    (hnone : db.requests.find? (fun r => r.id == rid && r.userId == uid) = none) :
    cancelRequest db uid rid =
      (db, .thrown (.typeError "Cannot destructure property userId of undefined")) := by
  simp [cancelRequest, hnone]

/-- Witness for C8: cancelling request id 5 in a store with no requests
throws the TypeError and leaves the store untouched. -/
theorem cancelRequest_missing_request_witness :
    wDb.requests.find? (fun r => r.id == 5 && r.userId == 1) = none ∧
    cancelRequest wDb 1 5 =
      (wDb, .thrown (.typeError "Cannot destructure property userId of undefined")) :=
  ⟨rfl, cancelRequest_missing_request wDb 1 5 rfl⟩

/-- C9 (the code as it is): `activateRequest` never performs the documented
transition and never returns the 404.  The query lacks `.first()`, so
`request` is an Array; `if (!request)` never fires because an Array is truthy
even when empty, and `request.$query()` is not a function on an Array — every
call, token match or not, throws a TypeError and updates nothing. -/
theorem activateRequest_always_throws (db : DB) (uid : Nat) (token : String) :
    activateRequest db uid token =
      (db, .thrown (.typeError "request.$query is not a function")) := by
  simp [activateRequest, jsArrayTruthy]

/-- Counterexample to C5 as originally stated: a redemption creation with
neither amount nor percent fails with the generic Node `AssertionError`
thrown by `assert(amount || percent, ...)` on line 140 — surfaced by the
generic error handler as a 500 — which is not the taxonomy kind
`InvalidArgument`. -/
theorem redeemFromFund_missing_args_cex :
    redeemFromFund wDb 1 1 none none false false =
      (wDb, .thrown (.assertionFailed "Need amount or percent for a redemption request")) ∧
    Err.isInvalidArgument
      (.assertionFailed "Need amount or percent for a redemption request") = false :=
  ⟨rfl, rfl⟩

/-- C5 as amended: a redemption creation with neither amount nor percent
fails with the generic Node `AssertionError` of `assert(amount || percent,
...)` — a 500-class assertion failure, not the taxonomy `InvalidArgument`;
with a truthy amount or percent, an existing fund and verified two-factor it
inserts a redemption request directly in status `PENDING`; and in all cases
the handler neither reads nor writes any balance row — the balances pass
through untouched and the entire result is independent of them. -/
theorem redeemFromFund_creation (db : DB) (fid uid : Nat)
    (amount percent : Option ℚ) (twofa tv : Bool) :
    (amount = none → percent = none →
      redeemFromFund db fid uid amount percent twofa tv =
        (db, .thrown (.assertionFailed "Need amount or percent for a redemption request"))) ∧
    (∀ fund : InvestmentFund,
      (truthyOpt amount || truthyOpt percent) = true →
      db.funds.find? (fun f => f.id == fid) = some fund →
      (twofa = false ∨ tv = true) →
      redeemFromFund db fid uid amount percent twofa tv =
        ({ db with
            requests := db.requests ++ [redemptionRow db fid uid amount percent]
            nextRequestId := db.nextRequestId + 1 },
          .okRequest (redemptionRow db fid uid amount percent)) ∧
      (redemptionRow db fid uid amount percent).type = .redemption ∧
      (redemptionRow db fid uid amount percent).status = .pending ∧
      (redemptionRow db fid uid amount percent).amount = amount ∧
      (redemptionRow db fid uid amount percent).requestPercent = percent) ∧
    ((redeemFromFund db fid uid amount percent twofa tv).1.balances = db.balances) ∧
    (∀ bs : List Balance,
      redeemFromFund { db with balances := bs } fid uid amount percent twofa tv =
        ({ (redeemFromFund db fid uid amount percent twofa tv).1 with balances := bs },
          (redeemFromFund db fid uid amount percent twofa tv).2)) := by
  refine ⟨?_, ?_, ?_, ?_⟩
  · intro h1 h2
    subst h1
    subst h2
    simp [redeemFromFund, truthyOpt]
  · intro fund ht hf h2
    have h2fa : (twofa && !tv) = false := by
      rcases h2 with h | h <;> simp [h]
    refine ⟨?_, rfl, rfl, rfl, rfl⟩
    simp [redeemFromFund, ht, hf, h2fa]
  · by_cases hT : (truthyOpt amount || truthyOpt percent) = true
    · cases hfind : db.funds.find? (fun f => f.id == fid) with
      | none => simp [redeemFromFund, hT, hfind]
      | some fund =>
          by_cases h2 : (twofa && !tv) = true
          · simp [redeemFromFund, hT, hfind, h2]
          · have h2f : (twofa && !tv) = false := by simpa using h2
            simp [redeemFromFund, hT, hfind, h2f]
    · have hT2 : (truthyOpt amount || truthyOpt percent) = false := by
        simpa using hT
      simp [redeemFromFund, hT2]
  · intro bs
    by_cases hT : (truthyOpt amount || truthyOpt percent) = true
    · cases hfind : db.funds.find? (fun f => f.id == fid) with
      | none => simp [redeemFromFund, hT, hfind]
      | some fund =>
          by_cases h2 : (twofa && !tv) = true
          · simp [redeemFromFund, hT, hfind, h2]
          · have h2f : (twofa && !tv) = false := by simpa using h2
            simp [redeemFromFund, redemptionRow, hT, hfind, h2f]
    · have hT2 : (truthyOpt amount || truthyOpt percent) = false := by
        simpa using hT
      simp [redeemFromFund, hT2]

/-- Witness for C5: both creation paths and the balance independence at a
concrete store — no amount and no percent throws the assert; an amount of
250 against fund 1 inserts the pending redemption row. -/
theorem redeemFromFund_creation_witness :
    (redeemFromFund wDb 1 1 none none false false =
      (wDb, .thrown (.assertionFailed "Need amount or percent for a redemption request"))) ∧
    (truthyOpt (some (250 : ℚ)) || truthyOpt none) = true ∧
    wDb.funds.find? (fun f => f.id == 1) = some wFund ∧
    (redeemFromFund wDb 1 1 (some 250) none false false =
      ({ wDb with
          requests := wDb.requests ++ [redemptionRow wDb 1 1 (some 250) none]
          nextRequestId := wDb.nextRequestId + 1 },
        .okRequest (redemptionRow wDb 1 1 (some 250) none))) ∧
    (redeemFromFund wDb 1 1 (some 250) none false false).1.balances = wDb.balances :=
  ⟨(redeemFromFund_creation wDb 1 1 none none false false).1 rfl rfl,
    by norm_num [truthyOpt],
    rfl,
    ((redeemFromFund_creation wDb 1 1 (some 250) none false false).2.1 wFund
      (by norm_num [truthyOpt]) rfl (Or.inl rfl)).1,
    (redeemFromFund_creation wDb 1 1 (some 250) none false false).2.2.1⟩

/-- C6 as amended: an admin patch whose `(request type, target status)` pair
is not one of the four approve/decline combinations falls into the final
`else` and throws the bare internal `Error('Unknown investment fund request
operation')` — not the spec taxonomy `InvalidArgument` — and no ledger
movement is dispatched: the store is returned unchanged. -/
theorem patchInvestmentFundRequest_unknown_op (db : DB) (rid : Nat)
    (status : Status) (request : Request) (fund : InvestmentFund)
    (hreq : db.requests.find? (fun r => r.id == rid) = some request)
    (hf : db.funds.find? (fun f => f.id == request.investmentFundId) = some fund)
    (hlock : request.isLocked = false)
    (hs1 : status ≠ Status.approved) (hs2 : status ≠ Status.declined) :
    patchInvestmentFundRequest db rid status = (db, .thrown .unknownOperation) := by
  simp only [patchInvestmentFundRequest, hreq, hf, hlock]
  cases ht : request.type <;> cases status <;> simp_all

/-- Counterexample to C6: patching the pending subscription request to target
status `CANCELED` throws the generic internal error, which is not an
`InvalidArgument`. -/
theorem patchInvestmentFundRequest_unknown_op_cex :
    patchInvestmentFundRequest wDb3 5 Status.canceled =
      (wDb3, .thrown .unknownOperation) ∧
    Err.isInvalidArgument .unknownOperation = false :=
  ⟨rfl, rfl⟩

/-- Witness for the amended C6 at the concrete store. -/
theorem patchInvestmentFundRequest_unknown_op_witness :
    wDb3.requests.find? (fun r => r.id == 5) = some wReq ∧
    wReq.isLocked = false ∧
    patchInvestmentFundRequest wDb3 5 Status.canceled =
      (wDb3, .thrown .unknownOperation) :=
  ⟨rfl, rfl,
    patchInvestmentFundRequest_unknown_op wDb3 5 Status.canceled wReq wFund
      rfl rfl rfl (by decide) (by decide)⟩
